import Mathlib

/-!
Verification of the DJI SRT frame-geotagging program against its
natural-language specification.

The source file `frame_geotag_dji.py` is shallowly embedded below:
Python floats are modelled by exact rationals, Python strings by lists of
characters, and the fallible library calls (piexif) by explicit
environment flags.  Every definition is translated from the source; each
theorem is preceded by a doc comment naming the claim it settles.
-/

/-! ## Python numeric primitives -/

/-- Python `int(x)` applied to a float: truncation toward zero. -/
def pyInt (x : ℚ) : ℤ := if 0 ≤ x then ⌊x⌋ else ⌈x⌉

/-- Python `round`-to-integer: round half to even (banker's rounding). -/
def roundHalfEven (x : ℚ) : ℤ :=
  if x - ⌊x⌋ < 1/2 then ⌊x⌋
  else if 1/2 < x - ⌊x⌋ then ⌊x⌋ + 1
  else if ⌊x⌋ % 2 = 0 then ⌊x⌋ else ⌊x⌋ + 1

/-- Python `round(x, 5)`: round to 5 decimal places, half to even. -/
def round5 (x : ℚ) : ℚ := ((roundHalfEven (x * 100000) : ℤ) : ℚ) / 100000

theorem pyInt_eq_floor (x : ℚ) (h : 0 ≤ x) : pyInt x = ⌊x⌋ := if_pos h

theorem pyInt_intCast (k : ℤ) : pyInt (k : ℚ) = k := by
  unfold pyInt
  split_ifs <;> simp

theorem pyInt_err (x : ℚ) : |((pyInt x : ℤ) : ℚ) - x| < 1 := by
  unfold pyInt
  split_ifs with h
  · have h1 := Int.floor_le x
    have h2 := Int.lt_floor_add_one x
    rw [abs_lt]
    constructor <;> linarith
  · have h1 := Int.le_ceil x
    have h2 := Int.ceil_lt_add_one x
    rw [abs_lt]
    constructor <;> linarith

theorem roundHalfEven_err (y : ℚ) : |((roundHalfEven y : ℤ) : ℚ) - y| ≤ 1/2 := by
  have h1 := Int.floor_le y
  have h2 := Int.lt_floor_add_one y
  unfold roundHalfEven
  split_ifs with ha hb hc <;> rw [abs_le] <;> constructor <;> push_cast <;> linarith

theorem round5_err (x : ℚ) : |round5 x - x| ≤ 1/200000 := by
  have h := roundHalfEven_err (x * 100000)
  unfold round5
  rw [abs_le] at h ⊢
  constructor <;> linarith

/-! ## Coordinate encoder: `to_deg` (source lines 14–27) -/

/-- Result of `to_deg`: the tuple `(deg, min, sec, loc_value)`. -/
structure DMS where
  deg : ℤ
  minutes : ℤ
  sec : ℚ
  loc_value : String
deriving Repr, DecidableEq

/-- Source `to_deg(value, loc)`: decimal degrees to degrees/minutes/seconds
plus a hemisphere character chosen from the pair `loc` (empty when the
value is exactly 0).  `int` on the non-negative magnitudes is truncation,
`round(_, 5)` is Python rounding to 5 decimals. -/
def to_deg (value : ℚ) (loc : String × String) : DMS :=
  let loc_value := if value < 0 then loc.2 else if value > 0 then loc.1 else ""
  let abs_value := |value|
  let deg := pyInt abs_value
  let t1 := (abs_value - (deg : ℚ)) * 60
  let m := pyInt t1
  let sec := round5 ((t1 - (m : ℚ)) * 60)
  ⟨deg, m, sec, loc_value⟩

theorem to_deg_deg (v : ℚ) (l : String × String) : (to_deg v l).deg = ⌊|v|⌋ := by
  show pyInt |v| = ⌊|v|⌋
  exact pyInt_eq_floor _ (abs_nonneg v)

theorem to_deg_minutes (v : ℚ) (l : String × String) :
    (to_deg v l).minutes = ⌊(|v| - ((⌊|v|⌋ : ℤ) : ℚ)) * 60⌋ := by
  show pyInt ((|v| - ((pyInt |v| : ℤ) : ℚ)) * 60) = ⌊(|v| - ((⌊|v|⌋ : ℤ) : ℚ)) * 60⌋
  rw [pyInt_eq_floor _ (abs_nonneg v)]
  refine pyInt_eq_floor _ ?_
  have h := Int.floor_le |v|
  nlinarith

theorem to_deg_sec (v : ℚ) (l : String × String) :
    (to_deg v l).sec =
      round5 (((|v| - ((⌊|v|⌋ : ℤ) : ℚ)) * 60 - ((⌊(|v| - ((⌊|v|⌋ : ℤ) : ℚ)) * 60⌋ : ℤ) : ℚ)) * 60) := by
  show round5 (((|v| - ((pyInt |v| : ℤ) : ℚ)) * 60 -
      ((pyInt ((|v| - ((pyInt |v| : ℤ) : ℚ)) * 60) : ℤ) : ℚ)) * 60) = _
  rw [pyInt_eq_floor _ (abs_nonneg v)]
  have h : pyInt ((|v| - ((⌊|v|⌋ : ℤ) : ℚ)) * 60) = ⌊(|v| - ((⌊|v|⌋ : ℤ) : ℚ)) * 60⌋ := by
    refine pyInt_eq_floor _ ?_
    have h2 := Int.floor_le |v|
    nlinarith
  rw [h]

theorem to_deg_loc (v : ℚ) (l : String × String) :
    (to_deg v l).loc_value = if v < 0 then l.2 else if v > 0 then l.1 else "" := rfl

/-- Reconstruction error of the floor/floor/round5 decomposition of a
non-negative magnitude: `deg + min/60 + sec/3600` is within `1e-5` of `a`. -/
theorem dms_recon_err (a : ℚ) :
    |(((⌊a⌋ : ℤ) : ℚ) + ((⌊(a - ((⌊a⌋ : ℤ) : ℚ)) * 60⌋ : ℤ) : ℚ) / 60 +
      round5 (((a - ((⌊a⌋ : ℤ) : ℚ)) * 60 - ((⌊(a - ((⌊a⌋ : ℤ) : ℚ)) * 60⌋ : ℤ) : ℚ)) * 60) / 3600) - a|
      ≤ 1/100000 := by
  have key : (((⌊a⌋ : ℤ) : ℚ)) + ((⌊(a - ((⌊a⌋ : ℤ) : ℚ)) * 60⌋ : ℤ) : ℚ) / 60 +
      ((a - ((⌊a⌋ : ℤ) : ℚ)) * 60 - ((⌊(a - ((⌊a⌋ : ℤ) : ℚ)) * 60⌋ : ℤ) : ℚ)) * 60 / 3600 = a := by
    ring
  have h5 := round5_err (((a - ((⌊a⌋ : ℤ) : ℚ)) * 60 - ((⌊(a - ((⌊a⌋ : ℤ) : ℚ)) * 60⌋ : ℤ) : ℚ)) * 60)
  rw [abs_le] at h5 ⊢
  constructor <;> linarith

/-! ## Telemetry parser: `parse_dji_gps_data` (source lines 29–51)

The four `re.search` calls use patterns of the shape
`LITERAL  whitespace*  CAPTURE([-\d.]+)  optional-closing-bracket`.
Because the captured character class never contains a closing bracket or a
whitespace character, the greedy quantifiers need no backtracking, so each
search is exactly: scan positions left to right, and at the first position
where the literal matches, skip whitespace, take the maximal run of
`[-\d.]` characters (at least one) and, when the pattern demands it,
require the next character to be a closing bracket. -/

/-- ASCII whitespace matched by the regex class backslash-s. -/
def isPySpace (c : Char) : Bool :=
  c = ' ' || c = '\t' || c = '\n' || c = '\r' || c = '\x0b' || c = '\x0c'

/-- Characters matched by the regex character class `[-\d.]`. -/
def isNumChar (c : Char) : Bool := c.isDigit || c = '-' || c = '.'

/-- Matches one pattern `lit \s* ([-\d.]+) (']' when needBracket)` at the
head of `l`, returning the captured group. -/
def matchTokenAt (lit : List Char) (needBracket : Bool) (l : List Char) : Option (List Char) :=
  if lit.isPrefixOf l then
    let rest := (l.drop lit.length).dropWhile isPySpace
    let g := rest.takeWhile isNumChar
    if g.isEmpty then none
    else if needBracket then
      match rest.dropWhile isNumChar with
      | ']' :: _ => some g
      | _ => none
    else some g
  else none

/-- The leftmost-match semantics of `re.search` for the patterns above. -/
def searchToken (lit : List Char) (needBracket : Bool) : List Char → Option (List Char)
  | [] => none
  | c :: cs =>
    match matchTokenAt lit needBracket (c :: cs) with
    | some g => some g
    | none => searchToken lit needBracket cs

def latLit : List Char := "[latitude:".toList
def lonLit : List Char := "[longitude:".toList
def relLit : List Char := "[rel_alt:".toList
def absLit : List Char := "abs_alt:".toList

/-- Numeric value of a digit string. -/
def digitsVal (l : List Char) : ℕ :=
  l.foldl (fun a c => a * 10 + (c.toNat - 48)) 0

/-- Python `float()` restricted to strings over the characters `[-\d.]`:
an optional leading minus sign, then digits with at most one decimal
point and at least one digit; anything else raises `ValueError` (`none`). -/
def pyFloat (s : List Char) : Option ℚ :=
  let sign : ℚ := match s with | '-' :: _ => -1 | _ => 1
  let body : List Char := match s with | '-' :: rest => rest | _ => s
  let ip := body.takeWhile (fun c => c ≠ '.')
  let rest := body.dropWhile (fun c => c ≠ '.')
  let fp : List Char := match rest with | [] => [] | _ :: t => t
  if ip.all Char.isDigit && fp.all Char.isDigit && !(ip.isEmpty && fp.isEmpty) then
    some (sign * ((digitsVal ip : ℚ) + (digitsVal fp : ℚ) / (10 : ℚ) ^ fp.length))
  else none

/-- Parsed GPS record `(lat, lon, abs_alt, rel_alt)`. -/
structure GeoSample where
  latitude : ℚ
  longitude : ℚ
  absoluteAltitude : ℚ
  relativeAltitude : Option ℚ
deriving Repr, DecidableEq

/-- Source `parse_dji_gps_data(srt_text)`: runs the four searches; when the
three required matches exist, converts the captured strings with `float`
(a `ValueError` from any conversion, including the optional relative
altitude, is caught and yields `None`). -/
def parse_dji_gps_data (srt_text : List Char) : Option GeoSample :=
  let lat_match := searchToken latLit true srt_text
  let lon_match := searchToken lonLit true srt_text
  let rel_alt_match := searchToken relLit false srt_text
  let abs_alt_match := searchToken absLit true srt_text
  match lat_match, lon_match, abs_alt_match with
  | some latG, some lonG, some absG =>
    match pyFloat latG, pyFloat lonG, pyFloat absG with
    | some lat, some lon, some abs_alt =>
      match rel_alt_match with
      | some relG =>
        match pyFloat relG with
        | some rel_alt => some ⟨lat, lon, abs_alt, some rel_alt⟩
        | none => none
      | none => some ⟨lat, lon, abs_alt, none⟩
    | _, _, _ => none
  | _, _, _ => none

/-! ## GPS tag encoding (source lines 53–76) -/

/-- Fixed-point rational encoding used inline in `set_gps_location`:
`(int(value * scale), scale)` — note that Python `int` truncates. -/
def toRational (value : ℚ) (scale : ℕ) : ℤ × ℕ :=
  (pyInt (value * (scale : ℚ)), scale)

/-- The GPS IFD written by `set_gps_location`: hemisphere references,
degree/minute/second rationals and the altitude rational (lines 64–71). -/
structure GpsTag where
  latRef : String
  lat : (ℤ × ℕ) × (ℤ × ℕ) × (ℤ × ℕ)
  lonRef : String
  lon : (ℤ × ℕ) × (ℤ × ℕ) × (ℤ × ℕ)
  altRef : ℕ
  alt : ℤ × ℕ
deriving Repr, DecidableEq

/-- The pure arithmetic part of `set_gps_location` (lines 56–71): build the
GPS IFD from decimal latitude, longitude and absolute altitude.  The
seconds components use scale 100000, the altitude scale 100; the altitude
reference is fixed to 0 (above sea level). -/
def encodeGpsTag (lat lon abs_alt : ℚ) : GpsTag :=
  let lat_deg := to_deg lat ("N", "S")
  let lon_deg := to_deg lon ("E", "W")
  { latRef := lat_deg.loc_value
    lat := ((lat_deg.deg, 1), (lat_deg.minutes, 1), toRational lat_deg.sec 100000)
    lonRef := lon_deg.loc_value
    lon := ((lon_deg.deg, 1), (lon_deg.minutes, 1), toRational lon_deg.sec 100000)
    altRef := 0
    alt := toRational abs_alt 100 }

/-- Value of one EXIF rational. -/
def ratOf (p : ℤ × ℕ) : ℚ := ((p.1 : ℤ) : ℚ) / ((p.2 : ℕ) : ℚ)

/-- Standard decoding of a degree/minute/second rational triple back to
decimal degrees. -/
def decodeTriple (t : (ℤ × ℕ) × (ℤ × ℕ) × (ℤ × ℕ)) : ℚ :=
  ratOf t.1 + ratOf t.2.1 / 60 + ratOf t.2.2 / 3600

/-- Decoded signed latitude of a tag: negative iff the reference is "S". -/
def decodeLat (g : GpsTag) : ℚ :=
  (if g.latRef = "S" then (-1 : ℚ) else 1) * decodeTriple g.lat

/-- Decoded signed longitude of a tag: negative iff the reference is "W". -/
def decodeLon (g : GpsTag) : ℚ :=
  (if g.lonRef = "W" then (-1 : ℚ) else 1) * decodeTriple g.lon

/-- Decoded altitude of a tag. -/
def decodeAlt (g : GpsTag) : ℚ := ratOf g.alt

/-! ## Metadata writer: `set_gps_location` (source lines 53–80)

The piexif calls (`load`, `dump`, `insert`) are opaque library
primitives, not part of this repository.  Modelled from the spec: the
image is a metadata block (a GPS subgroup plus the other, untouched
sections) together with the non-metadata bytes; persisting either
succeeds atomically or raises, and a raise is caught by the function's
`except` clause, which returns `False` with the file unmodified. -/

/-- An image's EXIF block: the GPS section plus the other sections
(0th, Exif, 1st, thumbnail), which the code never touches. -/
structure ExifDict where
  gps : Option GpsTag
  rest : List (String × List ℕ)
deriving Repr, DecidableEq

/-- An image file: its metadata block and its remaining bytes. -/
structure ImageFile where
  metadata : ExifDict
  pixels : List ℕ
deriving Repr, DecidableEq

/-- Modelled from the spec: the opaque `saveMetadata` primitive
(piexif.dump + piexif.insert).  `ok` is the environment's verdict: on
success the image carries the new block, on failure the write raises and
the file is untouched. -/
def insertMeta (ok : Bool) (d : ExifDict) (img : ImageFile) : Option ImageFile :=
  if ok then some { img with metadata := d } else none

/-- Source `set_gps_location(file_path, lat, lon, abs_alt, rel_alt)`:
encode the coordinates, replace the GPS section of the loaded block, and
persist; any exception is caught and reported as `False`.  The
`rel_alt` argument is accepted but never written (faithful to the code). -/
def set_gps_location (ok : Bool) (img : ImageFile) (lat lon abs_alt : ℚ)
    (rel_alt : Option ℚ) : Bool × ImageFile :=
  let tag := encodeGpsTag lat lon abs_alt
  match insertMeta ok { img.metadata with gps := some tag } img with
  | some img2 => (true, img2)
  | none => (false, img)

/-! ## Temporal aligner and orchestration (source lines 109–247) -/

/-- One SRT subtitle entry: start/end ordinals in milliseconds and the
entry text (pysrt `sub.start.ordinal`, `sub.end.ordinal`, `sub.text`). -/
structure SubEntry where
  startMs : ℚ
  endMs : ℚ
  text : List Char
deriving Repr, DecidableEq

/-- The inner loop of lines 216–222: scan the subtitle list in order and
return the first entry whose inclusive bounds contain the timestamp. -/
def findInterval (t : ℚ) : List SubEntry → Option SubEntry
  | [] => none
  | s :: rest =>
    if s.startMs ≤ t ∧ t ≤ s.endMs then some s else findInterval t rest

/-- Line 212: `frame_time_seconds = (frame_number - 1) / extraction_fps`.
The source frame rate is in scope but does not enter the computation. -/
def frameTimestamp (frameIndex : ℕ) (sourceFps extractionFps : ℚ) : ℚ :=
  ((frameIndex : ℚ) - 1) / extractionFps

/-- Outcome of processing one frame (lines 207–242). -/
inductive FrameOutcome where
  | tagged
  | writeFailed
  | parseFailed
  | noMatch
deriving Repr, DecidableEq

/-- Lines 207–242 for a single image: compute the frame's timestamp in
milliseconds, find the first containing subtitle entry, parse its GPS
data, and attempt the EXIF write (`writeOk` is the environment's verdict
on that write).  Parse failure and write failure both leave the frame
untagged but never raise. -/
def processFrame (writeOk : Bool) (extraction_fps : ℚ) (subs : List SubEntry)
    (frame_number : ℕ) : FrameOutcome :=
  let t := ((frame_number : ℚ) - 1) / extraction_fps * 1000
  match findInterval t subs with
  | none => FrameOutcome.noMatch
  | some sub =>
    match parse_dji_gps_data sub.text with
    | none => FrameOutcome.parseFailed
    | some _ => if writeOk then FrameOutcome.tagged else FrameOutcome.writeFailed

/-- The per-group loop (lines 205–244): every frame of the group is
processed in turn; the result is `(group_success, frames processed)`.
Each frame is a pair of its 1-based number and the environment's write
verdict for it. -/
def processGroup (extraction_fps : ℚ) (subs : List SubEntry) :
    List (ℕ × Bool) → ℕ × ℕ
  | [] => (0, 0)
  | f :: rest =>
    let r := processGroup extraction_fps subs rest
    ((if processFrame f.2 extraction_fps subs f.1 = FrameOutcome.tagged then 1 else 0) + r.1,
      1 + r.2)

/-- The whole-run loop (lines 189–247): totals over all groups,
`(total_success, total_images)`. -/
def processRun (extraction_fps : ℚ) :
    List (List SubEntry × List (ℕ × Bool)) → ℕ × ℕ
  | [] => (0, 0)
  | g :: rest =>
    let r := processRun extraction_fps rest
    ((processGroup extraction_fps g.1 g.2).1 + r.1,
      (processGroup extraction_fps g.1 g.2).2 + r.2)

/-! ## Frame-rate configuration (source lines 160–186) -/

/-- What the operator typed at one frame-rate prompt, after `strip()`:
nothing, something `float()` rejects, or a parsed value. -/
inductive FpsInput where
  | blank
  | invalid
  | value (v : ℚ)
deriving Repr, DecidableEq

/-- Lines 164–183: a blank answer or a `ValueError` from `float()` both
fall back to the default rate; otherwise the typed value is used. -/
def resolveFps (inp : FpsInput) (defaultFps : ℚ) : ℚ :=
  match inp with
  | FpsInput.blank => defaultFps
  | FpsInput.invalid => defaultFps
  | FpsInput.value v => v

/-- Lines 160–186: resolve both rates (defaults 29.97 and 5.0), then print
the extraction ratio `video_fps / extraction_fps`.  A zero extraction
rate makes that division raise an uncaught `ZeroDivisionError`, aborting
the run (`none`) before any frame is processed; any other configuration
proceeds into the processing loop with the resolved pair. -/
def configStep (videoInp extractionInp : FpsInput) : Option (ℚ × ℚ) :=
  let video_fps := resolveFps videoInp (2997/100)
  let extraction_fps := resolveFps extractionInp 5
  if extraction_fps = 0 then none else some (video_fps, extraction_fps)

/-! ## Interval lookup lemmas -/

theorem findInterval_eq_none_iff (t : ℚ) (subs : List SubEntry) :
    findInterval t subs = none ↔ ∀ s ∈ subs, ¬(s.startMs ≤ t ∧ t ≤ s.endMs) := by
  induction subs with
  | nil => simp [findInterval]
  | cons s rest ih =>
    by_cases h : s.startMs ≤ t ∧ t ≤ s.endMs
    · simp [findInterval, h]
    · rw [findInterval, if_neg h, ih]
      constructor
      · intro hall u hu
        rcases List.mem_cons.mp hu with h1 | h2
        · subst h1; exact h
        · exact hall u h2
      · intro hall u hu
        exact hall u (List.mem_cons_of_mem s hu)

theorem findInterval_eq_some (t : ℚ) (subs : List SubEntry) (s : SubEntry)
    (h : findInterval t subs = some s) :
    ∃ l1 l2, subs = l1 ++ s :: l2 ∧ (s.startMs ≤ t ∧ t ≤ s.endMs) ∧
      ∀ u ∈ l1, ¬(u.startMs ≤ t ∧ t ≤ u.endMs) := by
  induction subs with
  | nil => simp [findInterval] at h
  | cons a rest ih =>
    rw [findInterval] at h
    by_cases ha : a.startMs ≤ t ∧ t ≤ a.endMs
    · rw [if_pos ha] at h
      injection h with h2
      subst h2
      exact ⟨[], rest, rfl, ha, by simp⟩
    · rw [if_neg ha] at h
      obtain ⟨l1, l2, heq, hc, hall⟩ := ih h
      refine ⟨a :: l1, l2, by rw [heq]; rfl, hc, ?_⟩
      intro u hu
      rcases List.mem_cons.mp hu with h1 | h2
      · subst h1; exact ha
      · exact hall u h2

/-- C1 (amended): over lists ordered ascending by start, the lookup scans
linearly and returns the first interval containing the timestamp
inclusively; it returns no-match exactly when no interval contains the
timestamp — in particular for a timestamp before the first interval's
start, or strictly greater than every interval's end. -/
theorem findInterval_first_containing (t : ℚ) (subs : List SubEntry)
    (hsorted : List.Pairwise (fun a b => a.startMs ≤ b.startMs) subs) :
    (findInterval t subs = none ↔ ∀ s ∈ subs, ¬(s.startMs ≤ t ∧ t ≤ s.endMs)) ∧
    (∀ s, findInterval t subs = some s →
      ∃ l1 l2, subs = l1 ++ s :: l2 ∧ (s.startMs ≤ t ∧ t ≤ s.endMs) ∧
        ∀ u ∈ l1, ¬(u.startMs ≤ t ∧ t ≤ u.endMs)) ∧
    (∀ s0, subs.head? = some s0 → t < s0.startMs → findInterval t subs = none) ∧
    ((∀ s ∈ subs, s.endMs < t) → findInterval t subs = none) := by
  refine ⟨findInterval_eq_none_iff t subs, fun s h => findInterval_eq_some t subs s h, ?_, ?_⟩
  · intro s0 hh ht
    rw [findInterval_eq_none_iff]
    intro s hs hc
    have hstart : s0.startMs ≤ s.startMs := by
      rcases subs with _ | ⟨a, rest⟩
      · simp at hs
      · have ha : a = s0 := by simpa using hh
        subst ha
        rcases List.mem_cons.mp hs with h1 | h2
        · subst h1; exact le_refl _
        · exact (List.pairwise_cons.mp hsorted).1 s h2
    linarith [hc.1]
  · intro hend
    rw [findInterval_eq_none_iff]
    intro s hs hc
    exact absurd hc.2 (not_le.mpr (hend s hs))

/-- C1 witness: a concrete sorted track on which the amended theorem
applies — the timestamp 5000 ms is beyond every interval and the lookup
reports no match. -/
theorem findInterval_first_containing_witness :
    List.Pairwise (fun a b => a.startMs ≤ b.startMs) [SubEntry.mk 1000 1200 []] ∧
    findInterval 5000 [SubEntry.mk 1000 1200 []] = none :=
  ⟨by simp, (findInterval_first_containing 5000 [SubEntry.mk 1000 1200 []]
    (by simp)).2.2.2 (by decide)⟩

/-- C1 counterexample: two intervals ordered ascending by start, each with
start at most end, and a timestamp strictly after the LAST interval's end
for which the lookup nonetheless returns a match (the first interval
still contains it), refuting the claim's "None after the last interval's
end". -/
theorem findInterval_after_last_end_cex :
    (SubEntry.mk 0 100 []).startMs ≤ (SubEntry.mk 10 20 []).startMs ∧
    (SubEntry.mk 0 100 []).startMs ≤ (SubEntry.mk 0 100 []).endMs ∧
    (SubEntry.mk 10 20 []).startMs ≤ (SubEntry.mk 10 20 []).endMs ∧
    (SubEntry.mk 10 20 []).endMs < 50 ∧
    findInterval 50 [SubEntry.mk 0 100 [], SubEntry.mk 10 20 []] =
      some (SubEntry.mk 0 100 []) := by
  decide

/-- C2: the frame timestamp is `(frameIndex - 1) / extractionFps` seconds,
does not depend on the source frame rate, and is 0 for frame index 1. -/
theorem frameTimestamp_extraction_only (n : ℕ) (f g e : ℚ) (he : 0 < e) :
    frameTimestamp n f e = ((n : ℚ) - 1) / e ∧
    frameTimestamp n f e = frameTimestamp n g e ∧
    frameTimestamp 1 f e = 0 := by
  refine ⟨rfl, rfl, ?_⟩
  show (((1 : ℕ) : ℚ) - 1) / e = 0
  norm_num

/-- C2 witness: extraction rate 5 fps is positive, and frame 1 maps to
timestamp 0 there. -/
theorem frameTimestamp_extraction_only_witness :
    (0 : ℚ) < 5 ∧ frameTimestamp 1 (2997/100) 5 = 0 :=
  ⟨by norm_num, (frameTimestamp_extraction_only 1 (2997/100) 30 5 (by norm_num)).2.2⟩

/-! ## Orchestration lemmas -/

theorem processGroup_snd (e : ℚ) (subs : List SubEntry) (frames : List (ℕ × Bool)) :
    (processGroup e subs frames).2 = frames.length := by
  induction frames with
  | nil => rfl
  | cons f rest ih => simp [processGroup, ih, Nat.add_comm]

theorem processGroup_fst (e : ℚ) (subs : List SubEntry) (frames : List (ℕ × Bool)) :
    (processGroup e subs frames).1 =
      (frames.filter (fun f => processFrame f.2 e subs f.1 == FrameOutcome.tagged)).length := by
  induction frames with
  | nil => rfl
  | cons f rest ih =>
    by_cases h : processFrame f.2 e subs f.1 = FrameOutcome.tagged
    · simp [processGroup, List.filter_cons, h, ih, Nat.add_comm]
    · simp [processGroup, List.filter_cons, h, ih]

/-- C9: a per-frame failure (no interval match, GPS parse failure, or
metadata write failure) never aborts the batch: every group processes
every one of its frames, the group tally counts exactly the successfully
tagged frames, and the run totals are the sums of the group figures. -/
theorem processing_no_abort (e : ℚ) (groups : List (List SubEntry × List (ℕ × Bool))) :
    (∀ g ∈ groups, (processGroup e g.1 g.2).2 = g.2.length ∧
      (processGroup e g.1 g.2).1 =
        (g.2.filter (fun f => processFrame f.2 e g.1 f.1 == FrameOutcome.tagged)).length) ∧
    (processRun e groups).2 = (groups.map (fun g => g.2.length)).sum ∧
    (processRun e groups).1 = (groups.map (fun g => (processGroup e g.1 g.2).1)).sum := by
  refine ⟨fun g _ => ⟨processGroup_snd e g.1 g.2, processGroup_fst e g.1 g.2⟩, ?_, ?_⟩
  · induction groups with
    | nil => rfl
    | cons g rest ih => simp [processRun, ih, processGroup_snd]
  · induction groups with
    | nil => rfl
    | cons g rest ih => simp [processRun, ih]

/-- C9 witness: a concrete run — one group with an empty telemetry track
and two frames, so both frames are misses — still processes both frames. -/
theorem processing_no_abort_witness :
    (processRun 5 [(([] : List SubEntry), [(1, true), (2, false)])]).2 =
      ([(([] : List SubEntry), [(1, true), (2, false)])].map (fun g => g.2.length)).sum :=
  (processing_no_abort 5 [(([] : List SubEntry), [(1, true), (2, false)])]).2.1

/-- C4: inside (-90, 90) the hemisphere is the primary reference for
positive values, the secondary for negative values, and the empty string
(the implementation's deterministic default) at exactly 0; the magnitude
decomposes as floor degrees, floor minutes and 5-decimal rounded seconds,
and for nonzero values `deg + min/60 + sec/3600` reproduces the magnitude
within 1e-5. -/
theorem to_deg_spec (v : ℚ) (l : String × String) (h1 : -90 < v) (h2 : v < 90) :
    (v > 0 → (to_deg v l).loc_value = l.1) ∧
    (v < 0 → (to_deg v l).loc_value = l.2) ∧
    (v = 0 → (to_deg v l).loc_value = "") ∧
    (to_deg v l).deg = ⌊|v|⌋ ∧
    (to_deg v l).minutes = ⌊(|v| - ((⌊|v|⌋ : ℤ) : ℚ)) * 60⌋ ∧
    (to_deg v l).sec =
      round5 (((|v| - ((⌊|v|⌋ : ℤ) : ℚ)) * 60 - ((⌊(|v| - ((⌊|v|⌋ : ℤ) : ℚ)) * 60⌋ : ℤ) : ℚ)) * 60) ∧
    (v ≠ 0 →
      |((((to_deg v l).deg : ℤ) : ℚ) + (((to_deg v l).minutes : ℤ) : ℚ) / 60 +
        (to_deg v l).sec / 3600) - abs v| ≤ 1/100000) := by
  refine ⟨?_, ?_, ?_, to_deg_deg v l, to_deg_minutes v l, to_deg_sec v l, ?_⟩
  · intro hv
    rw [to_deg_loc, if_neg (by linarith), if_pos hv]
  · intro hv
    rw [to_deg_loc, if_pos hv]
  · intro hv
    rw [to_deg_loc]
    subst hv
    norm_num
  · intro _
    rw [to_deg_deg, to_deg_minutes, to_deg_sec]
    exact dms_recon_err |v|

/-- C4 witness: the theorem applied at 40.123 with pair ("N", "S"); the
hemisphere is "N". -/
theorem to_deg_spec_witness :
    (-90 : ℚ) < 40123/1000 ∧ (40123/1000 : ℚ) < 90 ∧
    ((40123/1000 : ℚ) > 0 → (to_deg (40123/1000) ("N", "S")).loc_value = "N") :=
  ⟨by norm_num, by norm_num,
    (to_deg_spec (40123/1000) ("N", "S") (by norm_num) (by norm_num)).1⟩

/-- C5 counterexample: for value 5.678 and scale 100 the code's numerator
is the truncation 567, not `round(567.8) = 568`, and the encoding error
`|567/100 - 5.678| = 0.008` exceeds `0.5/scale = 0.005`. -/
theorem toRational_round_cex :
    toRational (2839/500) 100 = (567, 100) ∧
    roundHalfEven ((2839/500) * 100) = 568 ∧
    ¬(|((567 : ℚ)/100) - 2839/500| ≤ 1/2/100) := by
  have hf : ⌊(2839/500 : ℚ) * 100⌋ = 567 := by norm_num
  refine ⟨?_, ?_, ?_⟩
  · show (pyInt ((2839/500 : ℚ) * ((100 : ℕ) : ℚ)), (100 : ℕ)) = (567, 100)
    rw [show ((100 : ℕ) : ℚ) = (100 : ℚ) by norm_num]
    rw [pyInt_eq_floor _ (by norm_num), hf]
  · unfold roundHalfEven
    rw [hf]
    norm_num
  · rw [not_le, abs_sub_comm, abs_of_pos (by norm_num : (0 : ℚ) < 2839/500 - 567/100)]
    norm_num

/-- C5 (amended): the encoder produces `numerator = int(value * scale)`
with Python `int`, i.e. truncation toward zero, and denominator `scale`,
so `numerator/denominator` approximates the value strictly within
`1/scale` (not `0.5/scale`). -/
theorem toRational_trunc_spec (v : ℚ) (scale : ℕ) (hs : 0 < scale) :
    toRational v scale = (pyInt (v * (scale : ℚ)), scale) ∧
    |((pyInt (v * (scale : ℚ)) : ℤ) : ℚ) / (scale : ℚ) - v| < 1 / (scale : ℚ) := by
  refine ⟨rfl, ?_⟩
  have hs0 : (0 : ℚ) < (scale : ℚ) := by exact_mod_cast hs
  have h := pyInt_err (v * (scale : ℚ))
  have e : ((pyInt (v * (scale : ℚ)) : ℤ) : ℚ) / (scale : ℚ) - v
      = (((pyInt (v * (scale : ℚ)) : ℤ) : ℚ) - v * (scale : ℚ)) / (scale : ℚ) := by
    field_simp
    try ring
  rw [e, abs_div, abs_of_pos hs0]
  gcongr

/-- C5 witness: the amended theorem applied at value 5.678, scale 100. -/
theorem toRational_trunc_spec_witness :
    0 < 100 ∧ toRational (2839/500) 100 = (pyInt ((2839/500 : ℚ) * ((100 : ℕ) : ℚ)), 100) :=
  ⟨by norm_num, (toRational_trunc_spec (2839/500) 100 (by norm_num)).1⟩

/-! ## Round-trip lemmas -/

theorem toRational_round5_exact (x : ℚ) :
    ((pyInt (round5 x * 100000) : ℤ) : ℚ) / 100000 = round5 x := by
  have h : round5 x * 100000 = ((roundHalfEven (x * 100000) : ℤ) : ℚ) := by
    unfold round5
    field_simp
  rw [h, pyInt_intCast]
  rfl

theorem decodeTriple_to_deg (v : ℚ) (l : String × String) :
    decodeTriple (((to_deg v l).deg, 1), ((to_deg v l).minutes, 1),
        toRational (to_deg v l).sec 100000)
      = (((to_deg v l).deg : ℤ) : ℚ) + (((to_deg v l).minutes : ℤ) : ℚ) / 60 +
        (to_deg v l).sec / 3600 := by
  have hsec : (to_deg v l).sec =
      round5 (((|v| - ((pyInt |v| : ℤ) : ℚ)) * 60 -
        ((pyInt ((|v| - ((pyInt |v| : ℤ) : ℚ)) * 60) : ℤ) : ℚ)) * 60) := rfl
  unfold decodeTriple ratOf toRational
  simp only [Nat.cast_one, Nat.cast_ofNat, div_one]
  rw [hsec, toRational_round5_exact]

theorem encode_side_err (v : ℚ) (l : String × String) :
    |decodeTriple (((to_deg v l).deg, 1), ((to_deg v l).minutes, 1),
        toRational (to_deg v l).sec 100000) - abs v| ≤ 1/100000 := by
  rw [decodeTriple_to_deg, to_deg_deg, to_deg_minutes, to_deg_sec]
  exact dms_recon_err |v|

theorem decode_signed_err (v : ℚ) (a b : String) (hab : a ≠ b) (hb : "" ≠ b) :
    |(if (to_deg v (a, b)).loc_value = b then (-1 : ℚ) else 1) *
      decodeTriple (((to_deg v (a, b)).deg, 1), ((to_deg v (a, b)).minutes, 1),
        toRational (to_deg v (a, b)).sec 100000) - v| ≤ 1/100000 := by
  have hm := encode_side_err v (a, b)
  set T := decodeTriple (((to_deg v (a, b)).deg, 1), ((to_deg v (a, b)).minutes, 1),
    toRational (to_deg v (a, b)).sec 100000) with hT
  rcases lt_trichotomy v 0 with hv | hv | hv
  · have hloc : (to_deg v (a, b)).loc_value = b := by
      rw [to_deg_loc, if_pos hv]
    rw [hloc, if_pos rfl]
    rw [abs_of_neg hv] at hm
    have e : (-1 : ℚ) * T - v = -(T - -v) := by ring
    rw [e, abs_neg]
    exact hm
  · have hloc : (to_deg v (a, b)).loc_value = "" := by
      rw [to_deg_loc]
      subst hv
      norm_num
    rw [hloc, if_neg hb]
    subst hv
    simpa using hm
  · have hloc : (to_deg v (a, b)).loc_value = a := by
      rw [to_deg_loc, if_neg (by linarith), if_pos hv]
    rw [hloc, if_neg hab]
    rw [abs_of_pos hv] at hm
    simpa using hm

/-- C6: encoding a geo sample with latitude in [-90, 90] and longitude in
[-180, 180] to a GPS tag and decoding the rationals back reproduces the
latitude and longitude within 1e-5 degrees and the altitude within 0.01
units. -/
theorem gps_roundtrip (lat lon abs_alt : ℚ) (h1 : -90 ≤ lat) (h2 : lat ≤ 90)
    (h3 : -180 ≤ lon) (h4 : lon ≤ 180) :
    |decodeLat (encodeGpsTag lat lon abs_alt) - lat| ≤ 1/100000 ∧
    |decodeLon (encodeGpsTag lat lon abs_alt) - lon| ≤ 1/100000 ∧
    |decodeAlt (encodeGpsTag lat lon abs_alt) - abs_alt| ≤ 1/100 := by
  refine ⟨?_, ?_, ?_⟩
  · exact decode_signed_err lat "N" "S" (by decide) (by decide)
  · exact decode_signed_err lon "E" "W" (by decide) (by decide)
  · have e : decodeAlt (encodeGpsTag lat lon abs_alt)
        = ((pyInt (abs_alt * ((100 : ℕ) : ℚ)) : ℤ) : ℚ) / ((100 : ℕ) : ℚ) := rfl
    rw [e]
    simp only [Nat.cast_ofNat]
    have h := pyInt_err (abs_alt * (100 : ℚ))
    have e2 : ((pyInt (abs_alt * (100 : ℚ)) : ℤ) : ℚ) / (100 : ℚ) - abs_alt
        = (((pyInt (abs_alt * (100 : ℚ)) : ℤ) : ℚ) - abs_alt * 100) / 100 := by
      ring
    rw [e2, abs_div, abs_of_pos (by norm_num : (0 : ℚ) < 100)]
    linarith [h]

/-- C6 witness: the round-trip theorem applied at the spec's scenario
coordinates (40.123, -74.456, altitude 50.25). -/
theorem gps_roundtrip_witness :
    ((-90 : ℚ) ≤ 40123/1000 ∧ (40123/1000 : ℚ) ≤ 90 ∧
      (-180 : ℚ) ≤ -74456/1000 ∧ (-74456/1000 : ℚ) ≤ 180) ∧
    |decodeLat (encodeGpsTag (40123/1000) (-74456/1000) (5025/100)) - 40123/1000| ≤ 1/100000 :=
  ⟨⟨by norm_num, by norm_num, by norm_num, by norm_num⟩,
    (gps_roundtrip (40123/1000) (-74456/1000) (5025/100)
      (by norm_num) (by norm_num) (by norm_num) (by norm_num)).1⟩

/-- C7 counterexample: a non-numeric extraction-rate answer is NOT fatal —
the run proceeds with the default rate 5.0 — and a negative extraction
rate is accepted and the run proceeds, refuting the claim that any
non-positive or non-numeric frame-rate parameter aborts the whole run. -/
theorem configStep_nonfatal_cex :
    configStep FpsInput.blank FpsInput.invalid = some (2997/100, 5) ∧
    configStep FpsInput.blank (FpsInput.value (-2)) = some (2997/100, -2) := by
  constructor <;> rfl

/-- C7 (amended): a blank or non-numeric frame-rate answer falls back to
the defaults (29.97 source, 5.0 extraction) and the run proceeds; an
extraction rate of exactly 0 aborts the run (uncaught division by zero in
the ratio display) before any frame is processed; every other extraction
rate, negative ones included, is accepted and the run proceeds. -/
theorem configStep_spec (vi : FpsInput) :
    configStep vi FpsInput.invalid = some (resolveFps vi (2997/100), 5) ∧
    configStep vi FpsInput.blank = some (resolveFps vi (2997/100), 5) ∧
    (∀ q : ℚ, q ≠ 0 → configStep vi (FpsInput.value q) = some (resolveFps vi (2997/100), q)) ∧
    configStep vi (FpsInput.value 0) = none := by
  refine ⟨rfl, rfl, fun q hq => ?_, rfl⟩
  show (if q = 0 then none else some (resolveFps vi (2997/100), q)) = _
  rw [if_neg hq]

/-- C7 witness: the amended theorem applied with a blank source-rate
answer and the concrete nonzero extraction rate 3. -/
theorem configStep_spec_witness :
    (3 : ℚ) ≠ 0 ∧
    configStep FpsInput.blank (FpsInput.value 3) = some (resolveFps FpsInput.blank (2997/100), 3) ∧
    configStep FpsInput.blank (FpsInput.value 0) = none :=
  ⟨by norm_num, (configStep_spec FpsInput.blank).2.2.1 3 (by norm_num),
    (configStep_spec FpsInput.blank).2.2.2⟩

/-- C8: the metadata write loads the image's block, replaces only the GPS
subgroup with the newly encoded tag, leaves every other metadata section
and the image bytes unchanged, and persists; on failure it reports
`False` and the image is left unmodified. -/
theorem set_gps_location_spec (ok : Bool) (img : ImageFile) (lat lon abs_alt : ℚ)
    (rel : Option ℚ) :
    ((set_gps_location ok img lat lon abs_alt rel).1 = true →
      (set_gps_location ok img lat lon abs_alt rel).2.metadata.gps
          = some (encodeGpsTag lat lon abs_alt) ∧
      (set_gps_location ok img lat lon abs_alt rel).2.metadata.rest = img.metadata.rest ∧
      (set_gps_location ok img lat lon abs_alt rel).2.pixels = img.pixels) ∧
    ((set_gps_location ok img lat lon abs_alt rel).1 = false →
      (set_gps_location ok img lat lon abs_alt rel).2 = img) := by
  cases ok <;> simp [set_gps_location, insertMeta]

/-- C8 witness: a successful write on a concrete image keeps the non-GPS
sections, and a failed write leaves the concrete image unchanged. -/
theorem set_gps_location_spec_witness :
    (set_gps_location true (ImageFile.mk (ExifDict.mk none [("Exif", [1])]) [7])
        1 2 3 none).2.metadata.rest = [("Exif", [1])] ∧
    (set_gps_location false (ImageFile.mk (ExifDict.mk none [("Exif", [1])]) [7])
        1 2 3 none).2 = ImageFile.mk (ExifDict.mk none [("Exif", [1])]) [7] :=
  ⟨((set_gps_location_spec true (ImageFile.mk (ExifDict.mk none [("Exif", [1])]) [7])
      1 2 3 none).1 rfl).2.1,
    (set_gps_location_spec false (ImageFile.mk (ExifDict.mk none [("Exif", [1])]) [7])
      1 2 3 none).2 rfl⟩

/-- C3 (amended): a sample is produced exactly when the latitude,
longitude and absolute-altitude searches succeed with float-parsable
captures AND any successful rel_alt capture is float-parsable too; a
produced sample carries precisely the parsed values, with the relative
altitude absent when its token is absent (never a partially populated
sample); a missing abs_alt token, or a non-numeric latitude capture,
yields None. -/
theorem parse_dji_gps_data_spec (text : List Char) :
    ((parse_dji_gps_data text).isSome ↔
      (((searchToken latLit true text).bind pyFloat).isSome ∧
       ((searchToken lonLit true text).bind pyFloat).isSome ∧
       ((searchToken absLit true text).bind pyFloat).isSome ∧
       ∀ g, searchToken relLit false text = some g → (pyFloat g).isSome)) ∧
    (∀ s, parse_dji_gps_data text = some s →
      (searchToken latLit true text).bind pyFloat = some s.latitude ∧
      (searchToken lonLit true text).bind pyFloat = some s.longitude ∧
      (searchToken absLit true text).bind pyFloat = some s.absoluteAltitude ∧
      s.relativeAltitude = (searchToken relLit false text).bind pyFloat) ∧
    (searchToken absLit true text = none → parse_dji_gps_data text = none) ∧
    (∀ g, searchToken latLit true text = some g → pyFloat g = none →
      parse_dji_gps_data text = none) := by
  cases hlat : searchToken latLit true text with
  | none => simp [parse_dji_gps_data, hlat]
  | some g1 =>
    cases hlon : searchToken lonLit true text with
    | none => simp [parse_dji_gps_data, hlat, hlon]
    | some g2 =>
      cases habs : searchToken absLit true text with
      | none => simp [parse_dji_gps_data, hlat, hlon, habs]
      | some g3 =>
        cases hf1 : pyFloat g1 with
        | none => simp [parse_dji_gps_data, hlat, hlon, habs, hf1]
        | some x1 =>
          cases hf2 : pyFloat g2 with
          | none => simp [parse_dji_gps_data, hlat, hlon, habs, hf1, hf2]
          | some x2 =>
            cases hf3 : pyFloat g3 with
            | none => simp [parse_dji_gps_data, hlat, hlon, habs, hf1, hf2, hf3]
            | some x3 =>
              cases hrel : searchToken relLit false text with
              | none => simp [parse_dji_gps_data, hlat, hlon, habs, hf1, hf2, hf3, hrel]
              | some g4 =>
                cases hf4 : pyFloat g4 with
                | none => simp [parse_dji_gps_data, hlat, hlon, habs, hf1, hf2, hf3, hrel, hf4]
                | some x4 =>
                  simp [parse_dji_gps_data, hlat, hlon, habs, hf1, hf2, hf3, hrel, hf4]

/-- C3 witness: the characterization applied to the concrete record from
the spec's scenario, whose parse succeeds. -/
theorem parse_dji_gps_data_spec_witness :
    (parse_dji_gps_data
      "[latitude: 40.123][longitude: -74.456][rel_alt: 10.0 abs_alt: 50.25]".toList).isSome ↔
      (((searchToken latLit true
          "[latitude: 40.123][longitude: -74.456][rel_alt: 10.0 abs_alt: 50.25]".toList).bind
            pyFloat).isSome ∧
       ((searchToken lonLit true
          "[latitude: 40.123][longitude: -74.456][rel_alt: 10.0 abs_alt: 50.25]".toList).bind
            pyFloat).isSome ∧
       ((searchToken absLit true
          "[latitude: 40.123][longitude: -74.456][rel_alt: 10.0 abs_alt: 50.25]".toList).bind
            pyFloat).isSome ∧
       ∀ g, searchToken relLit false
          "[latitude: 40.123][longitude: -74.456][rel_alt: 10.0 abs_alt: 50.25]".toList = some g →
            (pyFloat g).isSome) :=
  (parse_dji_gps_data_spec
    "[latitude: 40.123][longitude: -74.456][rel_alt: 10.0 abs_alt: 50.25]".toList).1

/-- C3 counterexample: a record whose latitude, longitude and absolute
altitude are all present and float-parsable, yet parsing returns None
(the rel_alt capture "1.2.3" makes the float conversion raise), refuting
the claim's "if and only if". -/
theorem parse_required_ok_but_none_cex :
    ((searchToken latLit true
        "[latitude: 1.5][longitude: 2.5][rel_alt: 1.2.3 abs_alt: 7.5]".toList).bind
          pyFloat).isSome = true ∧
    ((searchToken lonLit true
        "[latitude: 1.5][longitude: 2.5][rel_alt: 1.2.3 abs_alt: 7.5]".toList).bind
          pyFloat).isSome = true ∧
    ((searchToken absLit true
        "[latitude: 1.5][longitude: 2.5][rel_alt: 1.2.3 abs_alt: 7.5]".toList).bind
          pyFloat).isSome = true ∧
    parse_dji_gps_data "[latitude: 1.5][longitude: 2.5][rel_alt: 1.2.3 abs_alt: 7.5]".toList
      = none :=
  ⟨rfl, rfl, rfl, rfl⟩

/-- C10: a record with valid latitude, longitude and absolute altitude
plus a rel_alt token whose capture "10.0.0" matches the extraction
pattern but is not a valid float makes the whole parse return None. -/
theorem parse_malformed_rel_alt_suppresses :
    ((searchToken latLit true
        "[latitude: 40.1][longitude: -74.4][rel_alt: 10.0.0 abs_alt: 50.2]".toList).bind
          pyFloat).isSome = true ∧
    ((searchToken lonLit true
        "[latitude: 40.1][longitude: -74.4][rel_alt: 10.0.0 abs_alt: 50.2]".toList).bind
          pyFloat).isSome = true ∧
    ((searchToken absLit true
        "[latitude: 40.1][longitude: -74.4][rel_alt: 10.0.0 abs_alt: 50.2]".toList).bind
          pyFloat).isSome = true ∧
    searchToken relLit false
        "[latitude: 40.1][longitude: -74.4][rel_alt: 10.0.0 abs_alt: 50.2]".toList
      = some "10.0.0".toList ∧
    pyFloat "10.0.0".toList = none ∧
    parse_dji_gps_data "[latitude: 40.1][longitude: -74.4][rel_alt: 10.0.0 abs_alt: 50.2]".toList
      = none :=
  ⟨rfl, rfl, rfl, rfl, rfl, rfl⟩

